import Mathlib

/-! Shallow embedding of the JAD repository's model_train notebook:
a 3D ResNet backbone, a shared-weight twin encoder, and the
contrastive + regression training objective. -/

/-- A dense tensor: a shape (list of dimension sizes, outermost first) and
the flattened data in row-major order, real-valued. -/
structure Tensor where
  shape : List ℕ
  data : List ℝ

/-- Size of the last dimension of a shape (the dimension
F.pairwise_distance reduces over). -/
def lastDim (shape : List ℕ) : ℕ := shape.getLastD 1

/-- Mean of a list of reals (torch.mean over all elements). -/
noncomputable def meanR (xs : List ℝ) : ℝ := xs.sum / xs.length

/-- The default eps of torch.nn.functional.pairwise_distance. -/
noncomputable def pdEps : ℝ := 1 / 1000000

/-- Element-wise ReLU, torch.relu / nn.ReLU in inference semantics:
clamp negatives to zero. -/
noncomputable def reluT (t : Tensor) : Tensor :=
  ⟨t.shape, t.data.map (fun a => max a 0)⟩

/-- Element-wise addition of two same-shaped tensors (the residual
`out += residual` of the blocks). -/
noncomputable def addT (t u : Tensor) : Tensor :=
  ⟨t.shape, t.data.zipWith (· + ·) u.data⟩

/-- torch.flatten(x, 1): keep the batch dimension, collapse the rest. -/
def flatten1 (t : Tensor) : Tensor :=
  match t.shape with
  | b :: rest => ⟨[b, rest.prod], t.data⟩
  | [] => t

/-- F.pairwise_distance(t1, t2, p=2) as in the source's contrastive_loss:
for each fiber along the LAST dimension (row-major strided layout, fiber i
is the data segment [i*n, (i+1)*n) where n is the last dimension's size),
the L2 norm of (t1 - t2 + eps) over that fiber, eps = 1e-6 the torch
default.  Returns the flat list of distances (one per fiber). -/
noncomputable def pairwise_distance (t1 t2 : Tensor) : List ℝ :=
  let n := lastDim t1.shape
  (List.range (t1.data.length / n)).map (fun i =>
    Real.sqrt (((List.range n).map (fun j =>
      (t1.data.getD (i * n + j) 0 - t2.data.getD (i * n + j) 0 + pdEps) ^ 2)).sum))

/-- The source's contrastive_loss: distances = F.pairwise_distance(f1, f2, p=2);
torch.mean(torch.clamp(margin - distances, min=0.0)).  Default margin 1.0. -/
noncomputable def contrastive_loss (features_x1 features_x2 : Tensor)
    (margin : ℝ := 1) : ℝ :=
  meanR ((pairwise_distance features_x1 features_x2).map
    (fun d => max (margin - d) 0))

/-- torch.nn.MSELoss() (default reduction "mean"): mean over all elements of
the squared difference. -/
noncomputable def mseLoss (input target : Tensor) : ℝ :=
  meanR (input.data.zipWith (fun a b => (a - b) ^ 2) target.data)

/-! ## Module-level model of the backbone (ResNet.forward, ModelComb)

Each child module of the ResNet is a function on tensors (its forward pass
under a fixed weight assignment, inference semantics); the fields are
listed in the registration (assignment) order of `ResNet.__init__`, which
is the order `ResNet.children()` yields them in. -/

structure ResNetM where
  conv1 : Tensor → Tensor
  bn1 : Tensor → Tensor
  relu : Tensor → Tensor
  maxpool : Tensor → Tensor
  layer1 : Tensor → Tensor
  layer2 : Tensor → Tensor
  layer3 : Tensor → Tensor
  layer4 : Tensor → Tensor
  avgpool : Tensor → Tensor
  fc : Tensor → Tensor

/-- list(resnet.children()): the submodules in registration order. -/
def ResNetM.children (R : ResNetM) : List (Tensor → Tensor) :=
  [R.conv1, R.bn1, R.relu, R.maxpool, R.layer1, R.layer2, R.layer3, R.layer4,
   R.avgpool, R.fc]

/-- nn.Sequential(mods)(x): apply the modules left to right. -/
def seqForward (mods : List (Tensor → Tensor)) (x : Tensor) : Tensor :=
  mods.foldl (fun a f => f a) x

/-- The intermediate tensor of ResNet.forward just before self.avgpool:
conv1, bn1, relu, maxpool, then the four stages. -/
def ResNetM.featuresPre (R : ResNetM) (x : Tensor) : Tensor :=
  R.layer4 (R.layer3 (R.layer2 (R.layer1 (R.maxpool (R.relu (R.bn1 (R.conv1 x)))))))

/-- ResNet.forward, line by line: stem, four stages, avgpool,
torch.flatten(x, 1), fc. -/
def ResNetM.forward (R : ResNetM) (x : Tensor) : Tensor :=
  let x := R.conv1 x
  let x := R.bn1 x
  let x := R.relu x
  let x := R.maxpool x
  let x := R.layer1 x
  let x := R.layer2 x
  let x := R.layer3 x
  let x := R.layer4 x
  let x := R.avgpool x
  let x := flatten1 x
  R.fc x

/-- ModelComb holds the single shared ResNet; `__init__` stores only
self.resnet (its n_classes and n_input_channels arguments are unused). -/
structure ModelComb where
  resnet : ResNetM

/-- ModelComb.__init__(resnet, n_classes=400, n_input_channels=1):
only self.resnet = resnet is assigned. -/
def ModelComb.init (resnet : ResNetM) (n_classes : ℕ := 400)
    (n_input_channels : ℕ := 1) : ModelComb :=
  ⟨resnet⟩

/-- ModelComb.forward: run the full resnet on each input, then run
nn.Sequential(*list(self.resnet.children())[:-2]) (all children but the
last two) on each input; return (features_x1, features_x2, reg0, reg1). -/
def ModelComb.forward (M : ModelComb) (x1 x2 : Tensor) :
    Tensor × Tensor × Tensor × Tensor :=
  let reg0 := M.resnet.forward x1
  let reg1 := M.resnet.forward x2
  let feature_extractor := seqForward (M.resnet.children.dropLast.dropLast)
  (feature_extractor x1, feature_extractor x2, reg0, reg1)

/-- The loss of the training cell as a function of the forward outputs and
the targets: contrastive_loss(features_x1, features_x2) (margin default
1.0) plus MSELoss(reg0, y1).  reg1 and y2 are in scope but unused, exactly
as in the source. -/
noncomputable def step_loss_of (features_x1 features_x2 reg0 reg1 y1 y2 : Tensor) : ℝ :=
  contrastive_loss features_x1 features_x2 + mseLoss reg0 y1

/-- The training cell's total_loss: forward the pair through the model,
then contr_loss + mse_loss. -/
noncomputable def train_step_loss (M : ModelComb) (x1 x2 y1 y2 : Tensor) : ℝ :=
  let out := M.forward x1 x2
  step_loss_of out.1 out.2.1 out.2.2.1 out.2.2.2 y1 y2

/-! ## Construction-level model of the backbone (ResNet.__init__, _make_layer)

This level records the structure the constructors build: convolution
hyper-parameters, normalization widths, the dropout layer kind, and the
per-stage block lists, together with the shape semantics of each layer. -/

/-- nn.Conv3d with a cubic kernel, cubic stride and cubic padding, as used
throughout the source (kernel_size, stride, padding are single ints or
equal triples there). -/
structure Conv3dSpec where
  in_channels : ℕ
  out_channels : ℕ
  kernel : ℕ
  stride : ℕ
  padding : ℕ
deriving DecidableEq

/-- conv3x3x3(in_planes, out_planes, stride): kernel 3, padding 1, no bias. -/
def conv3x3x3 (in_planes out_planes : ℕ) (stride : ℕ := 1) : Conv3dSpec :=
  ⟨in_planes, out_planes, 3, stride, 1⟩

/-- conv1x1x1(in_planes, out_planes, stride): kernel 1, padding 0, no bias. -/
def conv1x1x1 (in_planes out_planes : ℕ) (stride : ℕ := 1) : Conv3dSpec :=
  ⟨in_planes, out_planes, 1, stride, 0⟩

/-- The learned projection shortcut _make_layer builds:
nn.Sequential(conv1x1x1(inplanes, planes*expansion, stride),
nn.BatchNorm3d(planes*expansion)). -/
structure DownsampleSpec where
  conv : Conv3dSpec
  bn : ℕ
deriving DecidableEq

/-- The dropout layer a block owns: nn.Dropout (element-wise) or
nn.Dropout3d (spatial, whole-channel), with its rate. -/
inductive DropoutLayer where
  | dropout (p : ℚ)
  | dropout3d (p : ℚ)
deriving DecidableEq

/-- Whether the layer is 3D spatial (whole-channel) dropout. -/
def DropoutLayer.isSpatial3d : DropoutLayer → Bool
  | .dropout _ => false
  | .dropout3d _ => true

/-- The configured dropout probability of the layer. -/
def DropoutLayer.rate : DropoutLayer → ℚ
  | .dropout p => p
  | .dropout3d p => p

/-- Inference-mode (model.eval()) forward of either dropout layer: the
identity (PyTorch dropout is only active in training mode). -/
def DropoutLayer.evalForward (L : DropoutLayer) (t : Tensor) : Tensor := t

/-- The state BasicBlock.__init__ builds: conv3x3x3(in_planes, planes,
stride), BatchNorm3d(planes), conv3x3x3(planes, planes), BatchNorm3d(planes),
the optional downsample, the stride, and nn.Dropout(p=dropout_rate). -/
structure BasicBlockS where
  conv1 : Conv3dSpec
  bn1 : ℕ
  conv2 : Conv3dSpec
  bn2 : ℕ
  downsample : Option DownsampleSpec
  stride : ℕ
  dropout : DropoutLayer
deriving DecidableEq

/-- BasicBlock.__init__(in_planes, planes, stride=1, downsample=None,
dropout_rate=0.0). -/
def basicBlockInit (in_planes planes : ℕ) (stride : ℕ := 1)
    (downsample : Option DownsampleSpec := none) (dropout_rate : ℚ := 0) :
    BasicBlockS :=
  { conv1 := conv3x3x3 in_planes planes stride
    bn1 := planes
    conv2 := conv3x3x3 planes planes
    bn2 := planes
    downsample := downsample
    stride := stride
    dropout := DropoutLayer.dropout dropout_rate }

/-- The state Bottleneck.__init__ builds: conv1x1x1(in_planes, planes),
BatchNorm3d(planes), conv3x3x3(planes, planes, stride), BatchNorm3d(planes),
conv1x1x1(planes, planes*4), BatchNorm3d(planes*4), the optional
downsample, the stride, and nn.Dropout3d(p=dropout_rate). -/
structure BottleneckS where
  conv1 : Conv3dSpec
  bn1 : ℕ
  conv2 : Conv3dSpec
  bn2 : ℕ
  conv3 : Conv3dSpec
  bn3 : ℕ
  downsample : Option DownsampleSpec
  stride : ℕ
  dropout : DropoutLayer
deriving DecidableEq

/-- Bottleneck.__init__(in_planes, planes, stride=1, downsample=None,
dropout_rate=0.0); expansion = 4. -/
def bottleneckInit (in_planes planes : ℕ) (stride : ℕ := 1)
    (downsample : Option DownsampleSpec := none) (dropout_rate : ℚ := 0) :
    BottleneckS :=
  { conv1 := conv1x1x1 in_planes planes
    bn1 := planes
    conv2 := conv3x3x3 planes planes stride
    bn2 := planes
    conv3 := conv1x1x1 planes (planes * 4)
    bn3 := planes * 4
    downsample := downsample
    stride := stride
    dropout := DropoutLayer.dropout3d dropout_rate }

/-- The two residual block variants of the source and their expansion
class attribute. -/
inductive BlockKind where
  | basic
  | bottleneck
deriving DecidableEq

/-- block.expansion: 1 for BasicBlock, 4 for Bottleneck. -/
def BlockKind.expansion : BlockKind → ℕ
  | .basic => 1
  | .bottleneck => 4

/-- The constructor arguments one `block(...)` call in _make_layer receives:
block(in_planes, planes, stride, downsample, dropout_rate=...). -/
structure BlockArgs where
  in_planes : ℕ
  planes : ℕ
  stride : ℕ
  downsample : Option DownsampleSpec
  dropout_rate : ℚ
deriving DecidableEq

/-- ResNet._make_layer(block, planes, blocks, stride, dropout_rate), with
self.inplanes passed in and the updated self.inplanes returned.  A
downsample projection is built when stride != 1 or self.inplanes !=
planes * block.expansion; the first block gets (inplanes, planes, stride,
downsample), every further block gets (planes * expansion, planes) with
the default stride 1 and downsample None. -/
def make_layer (block : BlockKind) (inplanes planes blocks stride : ℕ)
    (dropout_rate : ℚ) : List BlockArgs × ℕ :=
  let downsample : Option DownsampleSpec :=
    if stride ≠ 1 ∨ inplanes ≠ planes * block.expansion then
      some ⟨conv1x1x1 inplanes (planes * block.expansion) stride,
            planes * block.expansion⟩
    else none
  let first : BlockArgs := ⟨inplanes, planes, stride, downsample, dropout_rate⟩
  let rest : List BlockArgs :=
    List.replicate (blocks - 1)
      ⟨planes * block.expansion, planes, 1, none, dropout_rate⟩
  (first :: rest, planes * block.expansion)

/-- The state ResNet.__init__(block, layers, num_classes=1000,
dropout_rate=0.0, in_channels=3) builds: the stem conv
(in_channels→64, kernel 7, stride 2, padding 3), BatchNorm3d(64), the four
stages threaded through self.inplanes (starting at 64), and
nn.Linear(512 * block.expansion, num_classes) as (in_features,
out_features).  maxpool and avgpool have fixed hyper-parameters and appear
in the shape semantics below. -/
structure ResNetCfg where
  block : BlockKind
  conv1 : Conv3dSpec
  bn1 : ℕ
  layer1 : List BlockArgs
  layer2 : List BlockArgs
  layer3 : List BlockArgs
  layer4 : List BlockArgs
  fc : ℕ × ℕ
deriving DecidableEq

/-- ResNet.__init__ with the stage depths given as the four entries of the
`layers` list. -/
def resnetInit (block : BlockKind) (l1 l2 l3 l4 : ℕ)
    (num_classes : ℕ := 1000) (dropout_rate : ℚ := 0) (in_channels : ℕ := 3) :
    ResNetCfg :=
  let s1 := make_layer block 64 64 l1 1 dropout_rate
  let s2 := make_layer block s1.2 128 l2 2 dropout_rate
  let s3 := make_layer block s2.2 256 l3 2 dropout_rate
  let s4 := make_layer block s3.2 512 l4 2 dropout_rate
  { block := block
    conv1 := ⟨in_channels, 64, 7, 2, 3⟩
    bn1 := 64
    layer1 := s1.1
    layer2 := s2.1
    layer3 := s3.1
    layer4 := s4.1
    fc := (512 * block.expansion, num_classes) }

/-- resnet101(**kwargs) = ResNet(Bottleneck, [3, 4, 23, 3], **kwargs);
the keyword defaults are those of ResNet.__init__. -/
def resnet101 (num_classes : ℕ := 1000) (dropout_rate : ℚ := 0)
    (in_channels : ℕ := 3) : ResNetCfg :=
  resnetInit BlockKind.bottleneck 3 4 23 3 num_classes dropout_rate in_channels

/-- resnet101 called with no keyword arguments (all defaults). -/
def resnet101_default : ResNetCfg := resnet101

/-- The notebook's construction site for the backbone:
resnet101(num_classes=1, in_channels=1) (dropout_rate is left at its
default 0.0). -/
def model_resnet : ResNetCfg := resnet101 1 0 1

/-! ## Shape semantics

A shape is the list [batch, channels, d, h, w] (then [batch, features]
after flattening).  Each layer either produces the output shape or fails
(`none`) the way the PyTorch op raises: wrong rank, channel mismatch, or
an output dimension below 1. -/

/-- One spatial dimension through a conv/pool window: floor((n + 2*padding
- kernel) / stride) + 1, defined when the window fits (kernel ≤ n +
2*padding) and the stride is positive. -/
def convOutDim (kernel stride padding n : ℕ) : Option ℕ :=
  if 1 ≤ stride ∧ kernel ≤ n + 2 * padding then
    some ((n + 2 * padding - kernel) / stride + 1)
  else none

/-- nn.Conv3d on a 5-D input: channels must match in_channels; each spatial
dimension goes through the window formula. -/
def Conv3dSpec.outShape (c : Conv3dSpec) (s : List ℕ) : Option (List ℕ) :=
  match s with
  | [b, ch, d, h, w] =>
    if ch = c.in_channels then do
      let d' ← convOutDim c.kernel c.stride c.padding d
      let h' ← convOutDim c.kernel c.stride c.padding h
      let w' ← convOutDim c.kernel c.stride c.padding w
      some [b, c.out_channels, d', h', w']
    else none
  | _ => none

/-- nn.BatchNorm3d(features): shape-preserving, channels must equal the
declared feature count. -/
def bnOutShape (features : ℕ) (s : List ℕ) : Option (List ℕ) :=
  match s with
  | [b, ch, d, h, w] => if ch = features then some [b, ch, d, h, w] else none
  | _ => none

/-- nn.MaxPool3d(kernel_size=3, stride=2, padding=1) on a 5-D input
(floor mode). -/
def maxPoolOutShape (kernel stride padding : ℕ) (s : List ℕ) : Option (List ℕ) :=
  match s with
  | [b, ch, d, h, w] => do
    let d' ← convOutDim kernel stride padding d
    let h' ← convOutDim kernel stride padding h
    let w' ← convOutDim kernel stride padding w
    some [b, ch, d', h', w']
  | _ => none

/-- nn.AdaptiveAvgPool3d((1, 1, 1)): each spatial dimension (at least 1)
collapses to 1. -/
def adaptiveAvgPoolOutShape (s : List ℕ) : Option (List ℕ) :=
  match s with
  | [b, ch, d, h, w] =>
    if 1 ≤ d ∧ 1 ≤ h ∧ 1 ≤ w then some [b, ch, 1, 1, 1] else none
  | _ => none

/-- torch.flatten(x, 1) at the shape level. -/
def flattenOutShape (s : List ℕ) : Option (List ℕ) :=
  match s with
  | b :: rest => some [b, rest.prod]
  | [] => none

/-- nn.Linear(in_features, out_features) on a 2-D input. -/
def linearOutShape (in_features out_features : ℕ) (s : List ℕ) : Option (List ℕ) :=
  match s with
  | [b, f] => if f = in_features then some [b, out_features] else none
  | _ => none

/-- Shape of the downsample branch: its conv then its batch norm. -/
def DownsampleSpec.outShape (ds : DownsampleSpec) (s : List ℕ) : Option (List ℕ) := do
  let s ← ds.conv.outShape s
  bnOutShape ds.bn s

/-- BasicBlock.forward at the shape level: conv1, bn1 (relu and dropout
preserve shapes), conv2, bn2; the residual is x or downsample(x); the
in-place `out += residual` needs both branches to have the same shape. -/
def BasicBlockS.outShape (B : BasicBlockS) (s : List ℕ) : Option (List ℕ) := do
  let o ← B.conv1.outShape s
  let o ← bnOutShape B.bn1 o
  let o ← B.conv2.outShape o
  let o ← bnOutShape B.bn2 o
  let r ← match B.downsample with
    | none => some s
    | some ds => ds.outShape s
  if o = r then some o else none

/-- Bottleneck.forward at the shape level: conv1, bn1, conv2, bn2, conv3,
bn3 (relu and dropout preserve shapes); residual as in BasicBlock. -/
def BottleneckS.outShape (B : BottleneckS) (s : List ℕ) : Option (List ℕ) := do
  let o ← B.conv1.outShape s
  let o ← bnOutShape B.bn1 o
  let o ← B.conv2.outShape o
  let o ← bnOutShape B.bn2 o
  let o ← B.conv3.outShape o
  let o ← bnOutShape B.bn3 o
  let r ← match B.downsample with
    | none => some s
    | some ds => ds.outShape s
  if o = r then some o else none

/-- Shape of one block built from the _make_layer constructor arguments. -/
def blockOutShape (kind : BlockKind) (a : BlockArgs) (s : List ℕ) : Option (List ℕ) :=
  match kind with
  | .basic =>
    (basicBlockInit a.in_planes a.planes a.stride a.downsample a.dropout_rate).outShape s
  | .bottleneck =>
    (bottleneckInit a.in_planes a.planes a.stride a.downsample a.dropout_rate).outShape s

/-- Shape of a stage: nn.Sequential of its blocks. -/
def stageOutShape (kind : BlockKind) (blks : List BlockArgs) (s : List ℕ) :
    Option (List ℕ) :=
  blks.foldl (fun acc a => acc.bind (blockOutShape kind a)) (some s)

/-- ResNet.forward at the shape level, in the source's order: conv1, bn1,
relu, maxpool(3, 2, 1), the four stages, avgpool to (1,1,1),
torch.flatten(x, 1), fc. -/
def ResNetCfg.forwardShape (c : ResNetCfg) (s : List ℕ) : Option (List ℕ) := do
  let s ← c.conv1.outShape s
  let s ← bnOutShape c.bn1 s
  let s ← maxPoolOutShape 3 2 1 s
  let s ← stageOutShape c.block c.layer1 s
  let s ← stageOutShape c.block c.layer2 s
  let s ← stageOutShape c.block c.layer3 s
  let s ← stageOutShape c.block c.layer4 s
  let s ← adaptiveAvgPoolOutShape s
  let s ← flattenOutShape s
  linearOutShape c.fc.1 c.fc.2 s

/-! ## Inference-mode value semantics of the blocks

For the dropout claims: the convolution and batch-norm forwards are
abstracted as interpretations of their specs (they carry the learned
weights), relu and the residual addition are concrete, and the dropout
layer contributes its inference-mode (identity) forward. -/

/-- BasicBlock.forward in model.eval() mode, line by line. -/
noncomputable def BasicBlockS.forwardEval (convSem : Conv3dSpec → Tensor → Tensor)
    (bnSem : ℕ → Tensor → Tensor) (B : BasicBlockS) (x : Tensor) : Tensor :=
  let out := convSem B.conv1 x
  let out := bnSem B.bn1 out
  let out := reluT out
  let out := B.dropout.evalForward out
  let out := convSem B.conv2 out
  let out := bnSem B.bn2 out
  let residual := match B.downsample with
    | none => x
    | some ds => bnSem ds.bn (convSem ds.conv x)
  reluT (addT out residual)

/-- Bottleneck.forward in model.eval() mode, line by line (dropout is
applied after the first and after the second activation). -/
noncomputable def BottleneckS.forwardEval (convSem : Conv3dSpec → Tensor → Tensor)
    (bnSem : ℕ → Tensor → Tensor) (B : BottleneckS) (x : Tensor) : Tensor :=
  let out := convSem B.conv1 x
  let out := bnSem B.bn1 out
  let out := reluT out
  let out := B.dropout.evalForward out
  let out := convSem B.conv2 out
  let out := bnSem B.bn2 out
  let out := reluT out
  let out := B.dropout.evalForward out
  let out := convSem B.conv3 out
  let out := bnSem B.bn3 out
  let residual := match B.downsample with
    | none => x
    | some ds => bnSem ds.bn (convSem ds.conv x)
  reluT (addT out residual)

/-! ## Spec-side formulations of the contrastive loss -/

/-- The contrastive loss as the spec describes it: the mean over the BATCH
(the leading dimension) of clamp(margin - d_i, min=0), where d_i is the
plain Euclidean distance between the flattened per-sample feature vectors
(sample i's vector is the data segment of length numel/batch starting at
i * (numel/batch)). -/
noncomputable def contrastive_loss_specC1 (f1 f2 : Tensor) (margin : ℝ) : ℝ :=
  let batch := f1.shape.headD 0
  let sz := f1.data.length / batch
  meanR ((List.range batch).map (fun i =>
    max (margin - Real.sqrt (((List.range sz).map (fun j =>
      (f1.data.getD (i * sz + j) 0 - f2.data.getD (i * sz + j) 0) ^ 2)).sum)) 0))

/-- What the code actually computes, written independently with indexed
sums: the average over all K = numel / n last-dimension fibers (n the last
dimension's size) of clamp(margin - d_i, min=0), where d_i is the L2 norm
of (f1 - f2 + eps) over fiber i, eps = 1e-6. -/
noncomputable def contrastive_loss_lastdimSpec (f1 f2 : Tensor) (margin : ℝ) : ℝ :=
  let n := lastDim f1.shape
  let K := f1.data.length / n
  (∑ i in Finset.range K, max (margin - Real.sqrt (∑ j in Finset.range n,
    (f1.data.getD (i * n + j) 0 - f2.data.getD (i * n + j) 0 + pdEps) ^ 2)) 0) / K

/-- First feature map of the C1 counterexample: shape (1, 2, 1), a single
sample whose flattened feature vector is (3, 4). -/
noncomputable def c1t1 : Tensor := ⟨[1, 2, 1], [3, 4]⟩

/-- Second feature map of the C1 counterexample: all zeros of the same
shape. -/
noncomputable def c1t2 : Tensor := ⟨[1, 2, 1], [0, 0]⟩

/-- Sum of a map over List.range as a Finset.range sum. -/
theorem list_range_map_sum (f : ℕ → ℝ) (n : ℕ) :
    ((List.range n).map f).sum = ∑ i in Finset.range n, f i := by
  induction n with
  | zero => simp
  | succ k ih => rw [List.range_succ, Finset.sum_range_succ, List.map_append,
      List.sum_append, ih]; simp

/-- Value of the code's contrastive loss on the C1 counterexample pair at
margin 10. -/
theorem c1_code_val : contrastive_loss c1t1 c1t2 10 = (13 - 2 * pdEps) / 2 := by
  have hε : (0:ℝ) ≤ pdEps := by rw [pdEps]; norm_num
  have hε1 : pdEps ≤ 1 := by rw [pdEps]; norm_num
  have hpd : pairwise_distance c1t1 c1t2 =
      [Real.sqrt ((3 - 0 + pdEps) ^ 2), Real.sqrt ((4 - 0 + pdEps) ^ 2)] := by
    simp [pairwise_distance, c1t1, c1t2, lastDim, List.range_succ]
  have h1 : Real.sqrt ((3 - 0 + pdEps) ^ 2) = 3 + pdEps := by
    rw [show (3 - 0 + pdEps : ℝ) = 3 + pdEps by ring]
    exact Real.sqrt_sq (by linarith)
  have h2 : Real.sqrt ((4 - 0 + pdEps) ^ 2) = 4 + pdEps := by
    rw [show (4 - 0 + pdEps : ℝ) = 4 + pdEps by ring]
    exact Real.sqrt_sq (by linarith)
  rw [contrastive_loss, hpd, h1, h2]
  rw [List.map_cons, List.map_cons, List.map_nil, meanR]
  rw [max_eq_left (by linarith), max_eq_left (by linarith)]
  simp
  ring

/-- Value of the spec's (claimed) contrastive loss on the C1 counterexample
pair at margin 10. -/
theorem c1_spec_val : contrastive_loss_specC1 c1t1 c1t2 10 = 5 := by
  have h25 : Real.sqrt 25 = 5 := by
    rw [show (25 : ℝ) = 5 ^ 2 by norm_num]
    exact Real.sqrt_sq (by norm_num)
  simp [contrastive_loss_specC1, c1t1, c1t2, meanR, List.range_succ]
  rw [show (3 : ℝ) ^ 2 + 4 ^ 2 = 25 by norm_num, h25]
  norm_num

/-- C1 counterexample: on the feature-map pair of shape (1, 2, 1) with data
(3, 4) versus (0, 0) and margin 10, the code's contrastive loss (6.5 minus
the eps perturbation) differs from the claimed mean-over-batch
flattened-Euclidean formula (exactly 5): F.pairwise_distance reduces only
the LAST dimension and adds eps = 1e-6, so the mean runs over all
last-dimension fibers, not over the batch of flattened samples. -/
theorem c1_counterexample :
    contrastive_loss c1t1 c1t2 10 ≠ contrastive_loss_specC1 c1t1 c1t2 10 := by
  rw [c1_code_val, c1_spec_val, pdEps]
  norm_num

/-- C1 (amended): for every pair of feature maps and every margin, the
contrastive loss equals the average over all last-dimension fibers of
clamp(margin - d_i, min=0), where d_i is the L2 norm of (f1 - f2 + eps)
over fiber i (eps = 1e-6), fibers indexed in row-major order. -/
theorem c1_contrastive_loss_lastdim (f1 f2 : Tensor) (margin : ℝ) :
    contrastive_loss f1 f2 margin = contrastive_loss_lastdimSpec f1 f2 margin := by
  rw [contrastive_loss, contrastive_loss_lastdimSpec, meanR, pairwise_distance]
  rw [List.map_map]
  rw [list_range_map_sum]
  simp only [List.length_map, List.length_range, Function.comp]
  congr 1

/-- C2: for every weight assignment (every behavior of the child modules)
and every input, the feature-extraction view
nn.Sequential(*children()[:-2]) computes exactly the intermediate tensor
of ResNet.forward just before avgpool, and the full forward is that
intermediate followed by avgpool, flatten and fc. -/
theorem c2_feature_extractor_eq_prehead (R : ResNetM) (x : Tensor) :
    seqForward (R.children.dropLast.dropLast) x = R.featuresPre x ∧
    R.forward x = R.fc (flatten1 (R.avgpool (R.featuresPre x))) :=
  ⟨rfl, rfl⟩

/-- C3: the training step's total loss is the contrastive loss on
(features_x1, features_x2) plus the MSE between prediction_x1 and y1, as
an unweighted sum, and neither reg1 (prediction_x2) nor y2 enters: the
loss is invariant under replacing them by anything. -/
theorem c3_total_loss (M : ModelComb) (x1 x2 y1 y2 : Tensor) :
    train_step_loss M x1 x2 y1 y2 =
      contrastive_loss (M.forward x1 x2).1 (M.forward x1 x2).2.1 +
        mseLoss (M.forward x1 x2).2.2.1 y1 ∧
    (∀ reg1' y2', step_loss_of (M.forward x1 x2).1 (M.forward x1 x2).2.1
        (M.forward x1 x2).2.2.1 reg1' y1 y2' = train_step_loss M x1 x2 y1 y2) :=
  ⟨rfl, fun _ _ => rfl⟩

/-- C8: feeding the same tensor to both branches of the twin encoder gives
identical feature maps and identical predictions (inference semantics:
each child module is a fixed function of its input). -/
theorem c8_twin_consistency (M : ModelComb) (x : Tensor) :
    (M.forward x x).1 = (M.forward x x).2.1 ∧
    (M.forward x x).2.2.1 = (M.forward x x).2.2.2 :=
  ⟨rfl, rfl⟩

/-- C9: ModelComb.__init__ stores only the resnet; n_classes and
n_input_channels have no effect on the constructed model or its forward
behavior. -/
theorem c9_init_ignores_args (r : ResNetM) (a b a' b' : ℕ) :
    ModelComb.init r a b = ModelComb.init r a' b' ∧
    ∀ x1 x2, (ModelComb.init r a b).forward x1 x2 =
      (ModelComb.init r a' b').forward x1 x2 :=
  ⟨rfl, fun _ _ => rfl⟩

/-- C6: in _make_layer the first block receives the running inplanes, the
stage stride, and a 1x1x1 projection downsample exactly when stride is not
1 or inplanes differs from planes * expansion; every later block is built
with stride 1, no downsample, and input channel count planes * expansion. -/
theorem c6_make_layer (block : BlockKind) (inplanes planes blocks stride : ℕ)
    (dr : ℚ) :
    ((make_layer block inplanes planes blocks stride dr).1.head? =
      some ⟨inplanes, planes, stride,
        (if stride ≠ 1 ∨ inplanes ≠ planes * block.expansion then
          some ⟨conv1x1x1 inplanes (planes * block.expansion) stride,
                planes * block.expansion⟩
         else none), dr⟩) ∧
    ∀ a ∈ (make_layer block inplanes planes blocks stride dr).1.tail,
      a.stride = 1 ∧ a.downsample = none ∧ a.in_planes = planes * block.expansion := by
  refine ⟨rfl, fun a ha => ?_⟩
  rw [make_layer] at ha
  simp only [List.tail_cons] at ha
  rw [List.eq_of_mem_replicate ha]
  exact ⟨rfl, rfl, rfl⟩

/-- C7 counterexample: the BasicBlock variant's dropout layer is
nn.Dropout (element-wise), not a 3D spatial (whole-channel) dropout —
here at in_planes 64, planes 64, stride 1, no downsample, rate 1/2. -/
theorem c7_counterexample :
    (basicBlockInit 64 64 1 none (1/2)).dropout.isSpatial3d = false := rfl

/-- C7 (amended): BasicBlock's dropout is element-wise nn.Dropout while
Bottleneck's is spatial nn.Dropout3d (both applied after the first
activation, Bottleneck also after the second — see the forwardEval
definitions); the rate is configurable and defaults to 0.0; and in
inference mode the block outputs do not depend on the rate. -/
theorem c7_dropout_amended (in_planes planes stride : ℕ)
    (ds : Option DownsampleSpec) (r r' : ℚ)
    (convSem : Conv3dSpec → Tensor → Tensor) (bnSem : ℕ → Tensor → Tensor)
    (x : Tensor) :
    (basicBlockInit in_planes planes stride ds r).dropout = DropoutLayer.dropout r ∧
    (bottleneckInit in_planes planes stride ds r).dropout = DropoutLayer.dropout3d r ∧
    (basicBlockInit in_planes planes stride ds r).dropout.isSpatial3d = false ∧
    (bottleneckInit in_planes planes stride ds r).dropout.isSpatial3d = true ∧
    (basicBlockInit in_planes planes stride ds : BasicBlockS).dropout.rate = 0 ∧
    (bottleneckInit in_planes planes stride ds : BottleneckS).dropout.rate = 0 ∧
    BasicBlockS.forwardEval convSem bnSem
        (basicBlockInit in_planes planes stride ds r) x =
      BasicBlockS.forwardEval convSem bnSem
        (basicBlockInit in_planes planes stride ds r') x ∧
    BottleneckS.forwardEval convSem bnSem
        (bottleneckInit in_planes planes stride ds r) x =
      BottleneckS.forwardEval convSem bnSem
        (bottleneckInit in_planes planes stride ds r') x :=
  ⟨rfl, rfl, rfl, rfl, rfl, rfl, rfl, rfl⟩

/-- C10: resnet101 built with no keyword arguments has num_classes 1000
and in_channels 3 (not the task's 1 and 1); the notebook's construction
site, which passes num_classes=1 and in_channels=1 explicitly, yields the
task configuration. -/
theorem c10_resnet101_defaults :
    resnet101_default.fc.2 = 1000 ∧ resnet101_default.conv1.in_channels = 3 ∧
    ¬(resnet101_default.fc.2 = 1 ∧ resnet101_default.conv1.in_channels = 1) ∧
    model_resnet.fc.2 = 1 ∧ model_resnet.conv1.in_channels = 1 :=
  ⟨rfl, rfl, fun h => absurd h.1 (by decide), rfl, rfl⟩

/-- Sums respect pointwise comparison of the hinge terms: if the distances
grow pointwise, the summed clamp(margin - d, min=0) terms shrink. -/
theorem hinge_sum_antitone (m : ℝ) {l l' : List ℝ}
    (h : List.Forall₂ (· ≤ ·) l l') :
    (l'.map (fun d => max (m - d) 0)).sum ≤ (l.map (fun d => max (m - d) 0)).sum := by
  induction h with
  | nil => simp
  | cons hab _ ih =>
      simp only [List.map_cons, List.sum_cons]
      exact add_le_add (max_le_max (by linarith) le_rfl) ih

/-- C4: with a positive margin and a nonempty distance tensor, the code's
contrastive loss is 0 when every computed per-fiber distance is at least
the margin; equals a value strictly positive and at most the margin when
all computed distances are 0; and is monotonically non-increasing under a
pointwise increase of the computed distances. -/
theorem c4_contrastive_loss_properties (t1 t2 u1 u2 : Tensor) (m : ℝ)
    (hm : 0 < m) (hne : pairwise_distance t1 t2 ≠ []) :
    ((∀ d ∈ pairwise_distance t1 t2, m ≤ d) → contrastive_loss t1 t2 m = 0) ∧
    ((∀ d ∈ pairwise_distance t1 t2, d = 0) →
      0 < contrastive_loss t1 t2 m ∧ contrastive_loss t1 t2 m ≤ m) ∧
    (List.Forall₂ (· ≤ ·) (pairwise_distance t1 t2) (pairwise_distance u1 u2) →
      contrastive_loss u1 u2 m ≤ contrastive_loss t1 t2 m) := by
  refine ⟨fun hall => ?_, fun hzero => ?_, fun hmono => ?_⟩
  · rw [contrastive_loss, meanR]
    have hz : ((pairwise_distance t1 t2).map (fun d => max (m - d) 0)).sum = 0 := by
      apply List.sum_eq_zero
      intro x hx
      obtain ⟨d, hd, rfl⟩ := List.mem_map.mp hx
      exact max_eq_right (by linarith [hall d hd])
    rw [hz, zero_div]
  · have hrep : (pairwise_distance t1 t2).map (fun d => max (m - d) 0) =
        List.replicate (pairwise_distance t1 t2).length m := by
      rw [List.eq_replicate_iff]
      refine ⟨List.length_map _ _, fun b hb => ?_⟩
      obtain ⟨d, hd, rfl⟩ := List.mem_map.mp hb
      rw [hzero d hd, sub_zero]
      exact max_eq_left hm.le
    have hlen : 0 < (pairwise_distance t1 t2).length := List.length_pos.mpr hne
    have hval : contrastive_loss t1 t2 m = m := by
      rw [contrastive_loss, meanR, hrep, List.sum_replicate, nsmul_eq_mul,
        List.length_replicate]
      field_simp
    rw [hval]
    exact ⟨hm, le_rfl⟩
  · rw [contrastive_loss, contrastive_loss, meanR, meanR,
      List.length_map, List.length_map, ← hmono.length_eq]
    exact div_le_div_of_nonneg_right (hinge_sum_antitone m hmono) (Nat.cast_nonneg _)

/-- A concrete one-element feature map used to witness C4's hypotheses. -/
noncomputable def c4wT : Tensor := ⟨[1, 1], [0]⟩

/-- C4 witness: the hypotheses of c4_contrastive_loss_properties hold at
margin 1 and the concrete one-fiber tensor, and the theorem applies. -/
theorem c4_witness :
    (0 : ℝ) < 1 ∧ pairwise_distance c4wT c4wT ≠ [] ∧
    (((∀ d ∈ pairwise_distance c4wT c4wT, (1:ℝ) ≤ d) →
        contrastive_loss c4wT c4wT 1 = 0) ∧
     ((∀ d ∈ pairwise_distance c4wT c4wT, d = 0) →
        0 < contrastive_loss c4wT c4wT 1 ∧ contrastive_loss c4wT c4wT 1 ≤ 1) ∧
     (List.Forall₂ (· ≤ ·) (pairwise_distance c4wT c4wT)
        (pairwise_distance c4wT c4wT) →
        contrastive_loss c4wT c4wT 1 ≤ contrastive_loss c4wT c4wT 1)) := by
  have hm : (0 : ℝ) < 1 := one_pos
  have hne : pairwise_distance c4wT c4wT ≠ [] := by
    simp [pairwise_distance, c4wT, lastDim]
  exact ⟨hm, hne, c4_contrastive_loss_properties c4wT c4wT c4wT c4wT 1 hm hne⟩

/-- Window formula evaluation when the window fits. -/
theorem convOutDim_eval (kernel stride padding n : ℕ) (hs : 1 ≤ stride)
    (hk : kernel ≤ n + 2 * padding) :
    convOutDim kernel stride padding n = some ((n + 2 * padding - kernel) / stride + 1) := by
  unfold convOutDim
  rw [if_pos ⟨hs, hk⟩]

/-- Conv3d shape evaluation on a well-typed 5-D input. -/
theorem conv_outShape_eval (c : Conv3dSpec) (b d h w d' h' w' : ℕ)
    (hd : convOutDim c.kernel c.stride c.padding d = some d')
    (hh : convOutDim c.kernel c.stride c.padding h = some h')
    (hw : convOutDim c.kernel c.stride c.padding w = some w') :
    c.outShape [b, c.in_channels, d, h, w] = some [b, c.out_channels, d', h', w'] := by
  simp [Conv3dSpec.outShape, hd, hh, hw]

/-- BatchNorm3d shape evaluation on a matching 5-D input. -/
theorem bn_outShape_eval (f b d h w : ℕ) :
    bnOutShape f [b, f, d, h, w] = some [b, f, d, h, w] := by
  simp [bnOutShape]

/-- MaxPool3d shape evaluation. -/
theorem maxPool_outShape_eval (kernel stride padding b ch d h w d' h' w' : ℕ)
    (hd : convOutDim kernel stride padding d = some d')
    (hh : convOutDim kernel stride padding h = some h')
    (hw : convOutDim kernel stride padding w = some w') :
    maxPoolOutShape kernel stride padding [b, ch, d, h, w] = some [b, ch, d', h', w'] := by
  simp [maxPoolOutShape, hd, hh, hw]

/-- A stride-1 Bottleneck with identity shortcut (in_planes = planes * 4)
preserves the shape. -/
theorem bottleneck_rest_outShape (p b d h w : ℕ) (dr : ℚ)
    (hd : 1 ≤ d) (hh : 1 ≤ h) (hw : 1 ≤ w) :
    blockOutShape BlockKind.bottleneck ⟨p * 4, p, 1, none, dr⟩ [b, p * 4, d, h, w] =
      some [b, p * 4, d, h, w] := by
  have c1 : convOutDim 1 1 0 d = some d := by
    rw [convOutDim_eval 1 1 0 d le_rfl (by omega)]; congr 1; omega
  have c1h : convOutDim 1 1 0 h = some h := by
    rw [convOutDim_eval 1 1 0 h le_rfl (by omega)]; congr 1; omega
  have c1w : convOutDim 1 1 0 w = some w := by
    rw [convOutDim_eval 1 1 0 w le_rfl (by omega)]; congr 1; omega
  have c3 : convOutDim 3 1 1 d = some d := by
    rw [convOutDim_eval 3 1 1 d le_rfl (by omega)]; congr 1; omega
  have c3h : convOutDim 3 1 1 h = some h := by
    rw [convOutDim_eval 3 1 1 h le_rfl (by omega)]; congr 1; omega
  have c3w : convOutDim 3 1 1 w = some w := by
    rw [convOutDim_eval 3 1 1 w le_rfl (by omega)]; congr 1; omega
  simp [blockOutShape, bottleneckInit, BottleneckS.outShape, conv1x1x1, conv3x3x3,
    Conv3dSpec.outShape, bnOutShape, c1, c1h, c1w, c3, c3h, c3w]

/-- The first Bottleneck of a stage, with its projection shortcut: channels
go in_planes → planes * 4 and each spatial dimension n → (n - 1) / s + 1. -/
theorem bottleneck_first_outShape (ip p s b d h w : ℕ) (dr : ℚ)
    (hs : 1 ≤ s) (hd : 1 ≤ d) (hh : 1 ≤ h) (hw : 1 ≤ w) :
    blockOutShape BlockKind.bottleneck
      ⟨ip, p, s, some ⟨conv1x1x1 ip (p * 4) s, p * 4⟩, dr⟩ [b, ip, d, h, w] =
      some [b, p * 4, (d - 1) / s + 1, (h - 1) / s + 1, (w - 1) / s + 1] := by
  have c1 : ∀ n, 1 ≤ n → convOutDim 1 1 0 n = some n := fun n hn => by
    rw [convOutDim_eval 1 1 0 n le_rfl (by omega)]; congr 1; omega
  have c1r : ∀ n : ℕ, convOutDim 1 1 0 (n + 1) = some (n + 1) := fun n =>
    c1 (n + 1) (Nat.le_add_left 1 n)
  have c3 : ∀ n, 1 ≤ n → convOutDim 3 s 1 n = some ((n - 1) / s + 1) := fun n hn => by
    rw [convOutDim_eval 3 s 1 n hs (by omega),
      show n + 2 * 1 - 3 = n - 1 by omega]
  have cds : ∀ n, 1 ≤ n → convOutDim 1 s 0 n = some ((n - 1) / s + 1) := fun n hn => by
    rw [convOutDim_eval 1 s 0 n hs (by omega),
      show n + 2 * 0 - 1 = n - 1 by omega]
  simp [blockOutShape, bottleneckInit, BottleneckS.outShape, DownsampleSpec.outShape,
    conv1x1x1, conv3x3x3, Conv3dSpec.outShape, bnOutShape,
    c1 d hd, c1 h hh, c1 w hw, c3 d hd, c3 h hh, c3 w hw,
    cds d hd, cds h hh, cds w hw, c1r]

/-- Folding the trailing identical stride-1 blocks of a stage preserves the
shape. -/
theorem stage_rest_outShape (p m b d h w : ℕ) (dr : ℚ)
    (hd : 1 ≤ d) (hh : 1 ≤ h) (hw : 1 ≤ w) :
    stageOutShape BlockKind.bottleneck
      (List.replicate m ⟨p * 4, p, 1, none, dr⟩) [b, p * 4, d, h, w] =
      some [b, p * 4, d, h, w] := by
  induction m with
  | zero => rfl
  | succ k ih =>
      rw [List.replicate_succ, stageOutShape, List.foldl_cons]
      rw [show (some [b, p * 4, d, h, w]).bind
            (blockOutShape BlockKind.bottleneck ⟨p * 4, p, 1, none, dr⟩) =
          some [b, p * 4, d, h, w] by
        rw [Option.some_bind, bottleneck_rest_outShape p b d h w dr hd hh hw]]
      exact ih

/-- Shape of a whole Bottleneck stage as _make_layer builds it, when the
projection shortcut is constructed (always the case in this network). -/
theorem stage_outShape_make_layer (ip p blocks s b d h w : ℕ) (dr : ℚ)
    (hblocks : 1 ≤ blocks) (hs : 1 ≤ s) (hd : 1 ≤ d) (hh : 1 ≤ h) (hw : 1 ≤ w)
    (hds : s ≠ 1 ∨ ip ≠ p * 4) :
    stageOutShape BlockKind.bottleneck
      (make_layer BlockKind.bottleneck ip p blocks s dr).1 [b, ip, d, h, w] =
      some [b, p * 4, (d - 1) / s + 1, (h - 1) / s + 1, (w - 1) / s + 1] := by
  rw [make_layer]
  simp only [BlockKind.expansion]
  rw [if_pos hds]
  rw [stageOutShape, List.foldl_cons, Option.some_bind,
    bottleneck_first_outShape ip p s b d h w dr hs hd hh hw]
  exact stage_rest_outShape p (blocks - 1) b ((d - 1) / s + 1) ((h - 1) / s + 1)
    ((w - 1) / s + 1) dr (Nat.le_add_left 1 _) (Nat.le_add_left 1 _)
    (Nat.le_add_left 1 _)

/-- C5: for every batch size, class count, dropout rate and spatial sizes
D, H, W that are at least 32 and divisible by 32, the forward pass of the
101-layer backbone built for 1 input channel succeeds at every layer and
returns shape (batch, num_classes). -/
theorem c5_backbone_output_shape (bt nc D H W : ℕ) (dr : ℚ)
    (hD : 32 ∣ D) (hH : 32 ∣ H) (hW : 32 ∣ W)
    (hD32 : 32 ≤ D) (hH32 : 32 ≤ H) (hW32 : 32 ≤ W) :
    (resnet101 nc dr 1).forwardShape [bt, 1, D, H, W] = some [bt, nc] := by
  obtain ⟨a, rfl⟩ := hD
  obtain ⟨b2, rfl⟩ := hH
  obtain ⟨c2, rfl⟩ := hW
  have ha : 1 ≤ a := by omega
  have hb : 1 ≤ b2 := by omega
  have hc : 1 ≤ c2 := by omega
  have hcv : (resnet101 nc dr 1).conv1 = ⟨1, 64, 7, 2, 3⟩ := rfl
  have hbn : (resnet101 nc dr 1).bn1 = 64 := rfl
  have hblk : (resnet101 nc dr 1).block = BlockKind.bottleneck := rfl
  have hl1 : (resnet101 nc dr 1).layer1 =
      (make_layer BlockKind.bottleneck 64 64 3 1 dr).1 := rfl
  have hl2 : (resnet101 nc dr 1).layer2 =
      (make_layer BlockKind.bottleneck 256 128 4 2 dr).1 := rfl
  have hl3 : (resnet101 nc dr 1).layer3 =
      (make_layer BlockKind.bottleneck 512 256 23 2 dr).1 := rfl
  have hl4 : (resnet101 nc dr 1).layer4 =
      (make_layer BlockKind.bottleneck 1024 512 3 2 dr).1 := rfl
  have hfc : (resnet101 nc dr 1).fc = (2048, nc) := rfl
  have d7 : ∀ n m : ℕ, n = 32 * m → 1 ≤ m → convOutDim 7 2 3 n = some (16 * m) := by
    intro n m hn hm
    rw [convOutDim_eval 7 2 3 n (by omega) (by omega)]
    congr 1
    omega
  have d3 : ∀ n m : ℕ, n = 16 * m → 1 ≤ m → convOutDim 3 2 1 n = some (8 * m) := by
    intro n m hn hm
    rw [convOutDim_eval 3 2 1 n (by omega) (by omega)]
    congr 1
    omega
  have e_conv : (Conv3dSpec.mk 1 64 7 2 3).outShape [bt, 1, 32 * a, 32 * b2, 32 * c2] =
      some [bt, 64, 16 * a, 16 * b2, 16 * c2] :=
    conv_outShape_eval ⟨1, 64, 7, 2, 3⟩ bt (32 * a) (32 * b2) (32 * c2) _ _ _
      (d7 _ a rfl ha) (d7 _ b2 rfl hb) (d7 _ c2 rfl hc)
  have e_bn : bnOutShape 64 [bt, 64, 16 * a, 16 * b2, 16 * c2] =
      some [bt, 64, 16 * a, 16 * b2, 16 * c2] := bn_outShape_eval 64 bt _ _ _
  have e_max : maxPoolOutShape 3 2 1 [bt, 64, 16 * a, 16 * b2, 16 * c2] =
      some [bt, 64, 8 * a, 8 * b2, 8 * c2] :=
    maxPool_outShape_eval 3 2 1 bt 64 (16 * a) (16 * b2) (16 * c2) _ _ _
      (d3 _ a rfl ha) (d3 _ b2 rfl hb) (d3 _ c2 rfl hc)
  have e_st1 : stageOutShape BlockKind.bottleneck
      (make_layer BlockKind.bottleneck 64 64 3 1 dr).1 [bt, 64, 8 * a, 8 * b2, 8 * c2] =
      some [bt, 256, 8 * a, 8 * b2, 8 * c2] := by
    rw [stage_outShape_make_layer 64 64 3 1 bt (8 * a) (8 * b2) (8 * c2) dr
      (by omega) le_rfl (by omega) (by omega) (by omega) (Or.inr (by omega))]
    rw [show (8 * a - 1) / 1 + 1 = 8 * a by omega,
      show (8 * b2 - 1) / 1 + 1 = 8 * b2 by omega,
      show (8 * c2 - 1) / 1 + 1 = 8 * c2 by omega]
  have e_st2 : stageOutShape BlockKind.bottleneck
      (make_layer BlockKind.bottleneck 256 128 4 2 dr).1 [bt, 256, 8 * a, 8 * b2, 8 * c2] =
      some [bt, 512, 4 * a, 4 * b2, 4 * c2] := by
    rw [stage_outShape_make_layer 256 128 4 2 bt (8 * a) (8 * b2) (8 * c2) dr
      (by omega) (by omega) (by omega) (by omega) (by omega) (Or.inl (by omega))]
    rw [show (8 * a - 1) / 2 + 1 = 4 * a by omega,
      show (8 * b2 - 1) / 2 + 1 = 4 * b2 by omega,
      show (8 * c2 - 1) / 2 + 1 = 4 * c2 by omega]
  have e_st3 : stageOutShape BlockKind.bottleneck
      (make_layer BlockKind.bottleneck 512 256 23 2 dr).1 [bt, 512, 4 * a, 4 * b2, 4 * c2] =
      some [bt, 1024, 2 * a, 2 * b2, 2 * c2] := by
    rw [stage_outShape_make_layer 512 256 23 2 bt (4 * a) (4 * b2) (4 * c2) dr
      (by omega) (by omega) (by omega) (by omega) (by omega) (Or.inl (by omega))]
    rw [show (4 * a - 1) / 2 + 1 = 2 * a by omega,
      show (4 * b2 - 1) / 2 + 1 = 2 * b2 by omega,
      show (4 * c2 - 1) / 2 + 1 = 2 * c2 by omega]
  have e_st4 : stageOutShape BlockKind.bottleneck
      (make_layer BlockKind.bottleneck 1024 512 3 2 dr).1 [bt, 1024, 2 * a, 2 * b2, 2 * c2] =
      some [bt, 2048, a, b2, c2] := by
    rw [stage_outShape_make_layer 1024 512 3 2 bt (2 * a) (2 * b2) (2 * c2) dr
      (by omega) (by omega) (by omega) (by omega) (by omega) (Or.inl (by omega))]
    rw [show (2 * a - 1) / 2 + 1 = a by omega,
      show (2 * b2 - 1) / 2 + 1 = b2 by omega,
      show (2 * c2 - 1) / 2 + 1 = c2 by omega]
  have e_avg : adaptiveAvgPoolOutShape [bt, 2048, a, b2, c2] = some [bt, 2048, 1, 1, 1] := by
    simp only [adaptiveAvgPoolOutShape]
    rw [if_pos ⟨ha, hb, hc⟩]
  have e_flat : flattenOutShape [bt, 2048, 1, 1, 1] = some [bt, 2048] := by
    simp [flattenOutShape]
  have e_lin : linearOutShape 2048 nc [bt, 2048] = some [bt, nc] := by
    simp [linearOutShape]
  rw [ResNetCfg.forwardShape, hcv, hbn, hblk, hl1, hl2, hl3, hl4, hfc]
  simp only [e_conv, e_bn, e_max, e_st1, e_st2, e_st3, e_st4, e_avg, e_flat,
    e_lin, Option.bind_eq_bind, Option.some_bind']

/-- C5 witness: at batch 2, num_classes 1 and a 32×32×32 volume the
hypotheses hold and the backbone's shape pass returns some [2, 1]. -/
theorem c5_witness :
    (32 ∣ 32) ∧ 32 ≤ 32 ∧
    (resnet101 1 0 1).forwardShape [2, 1, 32, 32, 32] = some [2, 1] :=
  ⟨dvd_refl 32, le_rfl,
    c5_backbone_output_shape 2 1 32 32 32 0 (dvd_refl 32) (dvd_refl 32)
      (dvd_refl 32) le_rfl le_rfl le_rfl⟩
